import Mathlib

/-!
Shallow embedding of `src/scripts/xdp_gate.c` (the `xdp_lidar_gate` XDP
program).  A frame is the received packet's bytes, the BPF array map
`gate_map` is a partial function from keys to 64-bit values, and the
`bpf_get_prandom_u32()` draw is an explicit 32-bit argument.
-/

namespace XdpGate

/-- One received frame: the raw bytes between `ctx->data` and
`ctx->data_end`, each in `[0, 256)`. -/
def Frame : Type := List Nat

/-- The BPF array map `gate_map`: key 0 is `drop_pct`, key 1 is
`pkts_passed`, key 2 is `pkts_dropped`.  `bpf_map_lookup_elem` may fail,
which the C code guards with NULL checks, so a lookup returns `Option`. -/
def GateMap : Type := Nat → Option Nat

/-- Modulus of the 64-bit map values (`__u64`). -/
def U64MOD : Nat := 2 ^ 64

/-- Modulus of `bpf_get_prandom_u32`'s result (`__u32`). -/
def U32MOD : Nat := 2 ^ 32

/-- `__sync_fetch_and_add(ptr, 1)` on the value at key `k`, guarded by the
C code's NULL check: if the lookup fails, nothing is written. -/
def mapIncr (m : GateMap) (k : Nat) : GateMap :=
  match m k with
  | some v => fun j => if j = k then some ((v + 1) % U64MOD) else m j
  | none   => m

/-- The XDP verdict returned by the program: `XDP_PASS` or `XDP_DROP`. -/
inductive Decision : Type
  | PASS : Decision
  | DROP : Decision
deriving DecidableEq, Repr

/-- Byte `i` of the frame.  Every read in the embedded program is guarded
by a bounds check, so the default value is never observable. -/
def getByte (f : Frame) (i : Nat) : Nat := f.getD i 0

/-- `eth->h_proto == __constant_htons(ETH_P_IP)`: the two ethertype bytes
at offsets 12 and 13 are `0x08 0x00` (network byte order). -/
def ethProtoIsIPv4 (f : Frame) : Bool :=
  getByte f 12 == 0x08 && getByte f 13 == 0x00

/-- `ip->ihl`: the low nibble of the first IPv4 header byte (offset 14),
as laid out by the little-endian bitfield in `struct iphdr`. -/
def ihl (f : Frame) : Nat := getByte f 14 % 16

/-- Offset of the UDP header: `(void *)ip + (ip->ihl * 4)` relative to
`data`, i.e. `14 + 4 * ihl`. -/
def udpOff (f : Frame) : Nat := 14 + 4 * ihl f

/-- `udp->dest == __constant_htons(7502)`: the destination-port bytes at
offsets `udpOff + 2` and `udpOff + 3` are `0x1D 0x4E`. -/
def udpDestIsLidar (f : Frame) : Bool :=
  getByte f (udpOff f + 2) == 0x1D && getByte f (udpOff f + 3) == 0x4E

/-- `bpf_get_prandom_u32() % 100`: the reduction of the 32-bit draw used
for the gate decision. -/
def drawReduce (rnd32 : Nat) : Nat := rnd32 % 100

/-- The gate decision on a LiDAR packet: look up `drop_pct` (key 0); if
absent or 0, count a pass and return `XDP_PASS`; otherwise draw, drop and
count with probability `drop_pct`/100, else count a pass. -/
def gateCheck (m : GateMap) (rnd32 : Nat) : Decision × GateMap :=
  match m 0 with
  | none => (Decision.PASS, mapIncr m 1)
  | some p =>
    if p = 0 then (Decision.PASS, mapIncr m 1)
    else if drawReduce rnd32 < p then (Decision.DROP, mapIncr m 2)
    else (Decision.PASS, mapIncr m 1)

/-- Destination-port check: a mismatch returns `XDP_PASS` untouched. -/
def stagePort (f : Frame) (m : GateMap) (rnd32 : Nat) : Decision × GateMap :=
  if udpDestIsLidar f then gateCheck m rnd32 else (Decision.PASS, m)

/-- UDP bounds check: `(void *)(udp + 1) > data_end` returns `XDP_PASS`,
i.e. proceed only when `udpOff + 8 ≤ length`. -/
def stageUdp (f : Frame) (m : GateMap) (rnd32 : Nat) : Decision × GateMap :=
  if udpOff f + 8 ≤ f.length then stagePort f m rnd32 else (Decision.PASS, m)

/-- IP protocol check: `ip->protocol != IPPROTO_UDP` (byte 23 ≠ 17)
returns `XDP_PASS`. -/
def stageIpProto (f : Frame) (m : GateMap) (rnd32 : Nat) : Decision × GateMap :=
  if getByte f 23 == 17 then stageUdp f m rnd32 else (Decision.PASS, m)

/-- IP bounds check: `(void *)(ip + 1) > data_end` returns `XDP_PASS`,
i.e. proceed only when `14 + 20 ≤ length`. -/
def stageIp (f : Frame) (m : GateMap) (rnd32 : Nat) : Decision × GateMap :=
  if 34 ≤ f.length then stageIpProto f m rnd32 else (Decision.PASS, m)

/-- Ethertype check: `eth->h_proto != htons(ETH_P_IP)` returns `XDP_PASS`. -/
def stageEthProto (f : Frame) (m : GateMap) (rnd32 : Nat) : Decision × GateMap :=
  if ethProtoIsIPv4 f then stageIp f m rnd32 else (Decision.PASS, m)

/-- `xdp_lidar_gate`: the whole program, starting with the Ethernet
bounds check `(void *)(eth + 1) > data_end`. -/
def classify (f : Frame) (m : GateMap) (rnd32 : Nat) : Decision × GateMap :=
  if 14 ≤ f.length then stageEthProto f m rnd32 else (Decision.PASS, m)

/-- A frame on which the program reaches the gate check: it survives all
three bounds checks, the two protocol checks and the port match. -/
def isGateRelevant (f : Frame) : Bool :=
  decide (14 ≤ f.length) && ethProtoIsIPv4 f && decide (34 ≤ f.length)
    && (getByte f 23 == 17) && decide (udpOff f + 8 ≤ f.length)
    && udpDestIsLidar f

/-- How many 32-bit draws reduce to residue `r`: the preimage size of `r`
under the program's `% 100` reduction, over all `2^32` equally likely
outputs of `bpf_get_prandom_u32`. -/
def residueCount (r : Nat) : Nat :=
  ((Finset.range U32MOD).filter (fun x => drawReduce x = r)).card

/-- A concrete gate-relevant frame: 14-byte Ethernet header with
ethertype `0x0800`, 20-byte IPv4 header (`ihl = 5`, protocol UDP),
8-byte UDP header with destination port 7502 (`0x1D 0x4E`). -/
def fQ : Frame :=
  [0, 0, 0, 0, 0, 0, 0, 0, 0, 0, 0, 0, 0x08, 0x00,
   0x45, 0, 0, 0, 0, 0, 0, 0, 0, 17, 0, 0, 0, 0, 0, 0, 0, 0, 0, 0,
   0, 0, 0x1D, 0x4E, 0, 0, 0, 0]

/-- A 34-byte frame whose IPv4 header-length nibble is 0 (first IP byte
`0x40`), protocol UDP, and bytes `0x1D 0x4E` at offsets 16 and 17 —
inside the fixed IPv4 header. -/
def fShortIhl : Frame :=
  [0, 0, 0, 0, 0, 0, 0, 0, 0, 0, 0, 0, 0x08, 0x00,
   0x40, 0, 0x1D, 0x4E, 0, 0, 0, 0, 0, 17, 0, 0, 0, 0, 0, 0, 0, 0, 0, 0]

/-- A map state with `drop_pct = 0` and both counters present. -/
def mOpen : GateMap :=
  fun k => if k = 0 then some 0 else if k = 1 then some 5
    else if k = 2 then some 7 else none

/-- A map state with `drop_pct = 100` and both counters present. -/
def mFull : GateMap :=
  fun k => if k = 0 then some 100 else if k = 1 then some 3
    else if k = 2 then some 0 else none

/-- A map state with `drop_pct = 101`, outside the documented range. -/
def mOver : GateMap :=
  fun k => if k = 0 then some 101 else if k = 1 then some 0
    else if k = 2 then some 9 else none

/-- A map state whose `pkts_passed` counter sits at the largest 64-bit
value, one increment away from wrapping. -/
def mWrap : GateMap :=
  fun k => if k = 0 then some 0 else if k = 1 then some (U64MOD - 1)
    else if k = 2 then some 4 else none

/-- The program factors as: gate-relevant frames go to the gate check and
all other frames pass untouched. -/
theorem classify_factor (f : Frame) (m : GateMap) (rnd32 : Nat) :
    classify f m rnd32 =
      if isGateRelevant f then gateCheck m rnd32 else (Decision.PASS, m) := by
  unfold classify stageEthProto stageIp stageIpProto stageUdp stagePort isGateRelevant
  by_cases h1 : 14 ≤ f.length <;>
    by_cases h2 : ethProtoIsIPv4 f <;>
      by_cases h3 : 34 ≤ f.length <;>
        by_cases h4 : getByte f 23 == 17 <;>
          by_cases h5 : udpOff f + 8 ≤ f.length <;>
            by_cases h6 : udpDestIsLidar f <;>
              simp [h1, h2, h3, h4, h5, h6]

theorem mapIncr_apply_ne (m : GateMap) (k j : Nat) (h : j ≠ k) :
    mapIncr m k j = m j := by
  unfold mapIncr
  cases m k with
  | none => rfl
  | some v => simp [h]

theorem mapIncr_apply_self (m : GateMap) (k v : Nat) (h : m k = some v) :
    mapIncr m k k = some ((v + 1) % U64MOD) := by
  unfold mapIncr
  rw [h]
  simp

theorem gateCheck_open (m : GateMap) (rnd32 : Nat)
    (h0 : m 0 = none ∨ m 0 = some 0) :
    gateCheck m rnd32 = (Decision.PASS, mapIncr m 1) := by
  unfold gateCheck
  rcases h0 with h0 | h0 <;> rw [h0]
  simp

theorem gateCheck_drop (m : GateMap) (rnd32 p : Nat) (h0 : m 0 = some p)
    (hp : p ≠ 0) (hlt : drawReduce rnd32 < p) :
    gateCheck m rnd32 = (Decision.DROP, mapIncr m 2) := by
  unfold gateCheck
  rw [h0]
  simp [hp, hlt]

theorem gateCheck_pass (m : GateMap) (rnd32 p : Nat) (h0 : m 0 = some p)
    (hp : p ≠ 0) (hge : ¬ drawReduce rnd32 < p) :
    gateCheck m rnd32 = (Decision.PASS, mapIncr m 1) := by
  unfold gateCheck
  rw [h0]
  simp [hp, hge]

/-- C1: on every gate-relevant frame, if `drop_pct` (key 0) is absent or
zero the program returns `XDP_PASS`, increments `pkts_passed` (key 1) by
one (as a 64-bit counter), and leaves `pkts_dropped` (key 2) unchanged. -/
theorem gate_open_pass (f : Frame) (m : GateMap) (rnd32 : Nat)
    (hrel : isGateRelevant f = true) (h0 : m 0 = none ∨ m 0 = some 0) :
    (classify f m rnd32).1 = Decision.PASS ∧
    (∀ v, m 1 = some v →
      (classify f m rnd32).2 1 = some ((v + 1) % U64MOD)) ∧
    (classify f m rnd32).2 2 = m 2 := by
  rw [classify_factor, hrel]
  simp only [if_true]
  rw [gateCheck_open m rnd32 h0]
  exact ⟨rfl, fun v hv => mapIncr_apply_self m 1 v hv,
    mapIncr_apply_ne m 1 2 (by omega)⟩

theorem gate_open_pass_witness :
    isGateRelevant fQ = true ∧
    (classify fQ mOpen 0).1 = Decision.PASS ∧
    (classify fQ mOpen 0).2 1 = some ((5 + 1) % U64MOD) ∧
    (classify fQ mOpen 0).2 2 = mOpen 2 := by
  have h := gate_open_pass fQ mOpen 0 (by decide) (Or.inr rfl)
  exact ⟨by decide, h.1, h.2.1 5 rfl, h.2.2⟩

/-- C2: on every gate-relevant frame, if `drop_pct` is 100 the program
returns `XDP_DROP` for every possible 32-bit random draw, increments
`pkts_dropped` by one, and leaves `pkts_passed` unchanged. -/
theorem gate_full_drop (f : Frame) (m : GateMap) (rnd32 : Nat)
    (hrel : isGateRelevant f = true) (h0 : m 0 = some 100) :
    (classify f m rnd32).1 = Decision.DROP ∧
    (∀ v, m 2 = some v →
      (classify f m rnd32).2 2 = some ((v + 1) % U64MOD)) ∧
    (classify f m rnd32).2 1 = m 1 := by
  rw [classify_factor, hrel]
  simp only [if_true]
  rw [gateCheck_drop m rnd32 100 h0 (by omega) (Nat.mod_lt _ (by omega))]
  exact ⟨rfl, fun v hv => mapIncr_apply_self m 2 v hv,
    mapIncr_apply_ne m 2 1 (by omega)⟩

theorem gate_full_drop_witness :
    isGateRelevant fQ = true ∧
    (classify fQ mFull 7).1 = Decision.DROP ∧
    (classify fQ mFull 7).2 2 = some ((0 + 1) % U64MOD) ∧
    (classify fQ mFull 7).2 1 = mFull 1 := by
  have h := gate_full_drop fQ mFull 7 (by decide) rfl
  exact ⟨by decide, h.1, h.2.1 0 rfl, h.2.2⟩

/-- C3: on every frame that fails any of the bounds, protocol or port
checks, the program returns `XDP_PASS` and leaves the map untouched, for
every map state and draw. -/
theorem non_qualifying_pass (f : Frame) (m : GateMap) (rnd32 : Nat)
    (h : isGateRelevant f = false) :
    classify f m rnd32 = (Decision.PASS, m) := by
  rw [classify_factor, h]
  simp

theorem non_qualifying_pass_witness :
    isGateRelevant [] = false ∧
    classify [] mFull 0 = (Decision.PASS, mFull) :=
  ⟨by decide, non_qualifying_pass [] mFull 0 (by decide)⟩

/-- C8: the program is total — on every frame, map state and draw it
returns exactly one verdict, `XDP_PASS` or `XDP_DROP`. -/
theorem classify_returns_verdict (f : Frame) (m : GateMap) (rnd32 : Nat) :
    (classify f m rnd32).1 = Decision.PASS ∨
    (classify f m rnd32).1 = Decision.DROP := by
  cases (classify f m rnd32).1 with
  | PASS => exact Or.inl rfl
  | DROP => exact Or.inr rfl

/-- C10: on every gate-relevant frame, if the stored `drop_pct` exceeds
100 the program drops for every possible draw, since every reduced draw
lies in `[0, 100)`. -/
theorem over_hundred_drop (f : Frame) (m : GateMap) (rnd32 p : Nat)
    (hrel : isGateRelevant f = true) (h0 : m 0 = some p) (hp : 100 < p) :
    (classify f m rnd32).1 = Decision.DROP ∧
    (∀ v, m 2 = some v →
      (classify f m rnd32).2 2 = some ((v + 1) % U64MOD)) ∧
    (classify f m rnd32).2 1 = m 1 := by
  rw [classify_factor, hrel]
  simp only [if_true]
  have hdraw : drawReduce rnd32 < p :=
    lt_of_lt_of_le (Nat.mod_lt _ (by omega)) (by omega)
  rw [gateCheck_drop m rnd32 p h0 (by omega) hdraw]
  exact ⟨rfl, fun v hv => mapIncr_apply_self m 2 v hv,
    mapIncr_apply_ne m 2 1 (by omega)⟩

theorem over_hundred_drop_witness :
    isGateRelevant fQ = true ∧ mOver 0 = some 101 ∧
    (classify fQ mOver 42).1 = Decision.DROP ∧
    (classify fQ mOver 42).2 2 = some ((9 + 1) % U64MOD) ∧
    (classify fQ mOver 42).2 1 = mOver 1 := by
  have h := over_hundred_drop fQ mOver 42 101 (by decide) rfl (by omega)
  exact ⟨by decide, rfl, h.1, h.2.1 9 rfl, h.2.2⟩

/-- C4: at each parsing stage, a frame one byte shorter than that
stage's bound yields `XDP_PASS` with the map untouched, and a frame of
exactly the minimum length passes the bounds check and proceeds to the
next stage (Ethernet needs 14 bytes, fixed IPv4 needs 34, UDP needs
`udpOff + 8`). -/
theorem boundary_truncation (f : Frame) (m : GateMap) (rnd32 : Nat) :
    (f.length = 13 → classify f m rnd32 = (Decision.PASS, m)) ∧
    (f.length = 14 → classify f m rnd32 = stageEthProto f m rnd32) ∧
    (f.length = 33 → stageIp f m rnd32 = (Decision.PASS, m)) ∧
    (f.length = 34 → stageIp f m rnd32 = stageIpProto f m rnd32) ∧
    (f.length = udpOff f + 7 → stageUdp f m rnd32 = (Decision.PASS, m)) ∧
    (f.length = udpOff f + 8 → stageUdp f m rnd32 = stagePort f m rnd32) := by
  refine ⟨fun h => ?_, fun h => ?_, fun h => ?_, fun h => ?_,
    fun h => ?_, fun h => ?_⟩ <;>
    first
      | (unfold classify; rw [if_neg (by omega)])
      | (unfold classify; rw [if_pos (by omega)])
      | (unfold stageIp; rw [if_neg (by omega)])
      | (unfold stageIp; rw [if_pos (by omega)])
      | (unfold stageUdp; rw [if_neg (by omega)])
      | (unfold stageUdp; rw [if_pos (by omega)])

theorem boundary_truncation_witness :
    classify (List.replicate 13 0) mOpen 0 = (Decision.PASS, mOpen) ∧
    classify (List.replicate 14 0) mOpen 0 =
      stageEthProto (List.replicate 14 0) mOpen 0 ∧
    stageIp (List.replicate 33 0) mOpen 0 = (Decision.PASS, mOpen) ∧
    stageIp (List.replicate 34 0) mOpen 0 =
      stageIpProto (List.replicate 34 0) mOpen 0 ∧
    stageUdp (List.replicate 21 0) mOpen 0 = (Decision.PASS, mOpen) ∧
    stageUdp (List.replicate 22 0) mOpen 0 =
      stagePort (List.replicate 22 0) mOpen 0 :=
  ⟨(boundary_truncation (List.replicate 13 0) mOpen 0).1 (by decide),
   (boundary_truncation (List.replicate 14 0) mOpen 0).2.1 (by decide),
   (boundary_truncation (List.replicate 33 0) mOpen 0).2.2.1 (by decide),
   (boundary_truncation (List.replicate 34 0) mOpen 0).2.2.2.1 (by decide),
   (boundary_truncation (List.replicate 21 0) mOpen 0).2.2.2.2.1 (by decide),
   (boundary_truncation (List.replicate 22 0) mOpen 0).2.2.2.2.2 (by decide)⟩

/-- C9: the program never checks `ihl ≥ 5`.  A concrete 34-byte frame
with `ihl = 0` passes every check: the two bytes compared against port
7502 sit at offsets 16 and 17, strictly inside the fixed IPv4 header
(bytes 14 to 33), and the frame is counted and dropped like LiDAR
traffic. -/
theorem ihl_not_validated :
    ihl fShortIhl < 5 ∧
    udpOff fShortIhl = 14 ∧
    14 ≤ udpOff fShortIhl + 2 ∧ udpOff fShortIhl + 3 < 34 ∧
    isGateRelevant fShortIhl = true ∧
    (classify fShortIhl mFull 0).1 = Decision.DROP ∧
    (classify fShortIhl mFull 0).2 2 = some 1 := by
  refine ⟨by decide, by decide, by decide, by decide, by decide, ?_, ?_⟩ <;> decide

theorem classify_snd_cases (f : Frame) (m : GateMap) (rnd32 : Nat) :
    (classify f m rnd32).2 = m ∨ (classify f m rnd32).2 = mapIncr m 1 ∨
    (classify f m rnd32).2 = mapIncr m 2 := by
  rw [classify_factor]
  by_cases hrel : isGateRelevant f
  · rw [if_pos hrel]
    cases h0 : m 0 with
    | none => rw [gateCheck_open m rnd32 (Or.inl h0)]; exact Or.inr (Or.inl rfl)
    | some p =>
      by_cases hp : p = 0
      · rw [gateCheck_open m rnd32 (Or.inr (hp ▸ h0))]
        exact Or.inr (Or.inl rfl)
      · by_cases hlt : drawReduce rnd32 < p
        · rw [gateCheck_drop m rnd32 p h0 hp hlt]
          exact Or.inr (Or.inr rfl)
        · rw [gateCheck_pass m rnd32 p h0 hp hlt]
          exact Or.inr (Or.inl rfl)
  · rw [if_neg hrel]
    exact Or.inl rfl

/-- C7 counterexample: with `pkts_passed` at the largest 64-bit value,
one more gate-open pass wraps it to 0 — the stored value decreases. -/
theorem counter_wrap_counterexample :
    mWrap 1 = some (U64MOD - 1) ∧
    (classify fQ mWrap 0).2 1 = some 0 ∧
    (0 : Nat) < U64MOD - 1 := by
  refine ⟨by decide, by decide, by decide⟩

/-- C7 amended: every invocation leaves `drop_pct` (key 0) unchanged and
changes each counter (keys 1, 2) by 0 or +1 modulo `2^64`; in
particular, a counter below `2^64 - 1` never decreases. -/
theorem counter_step_bounded (f : Frame) (m : GateMap) (rnd32 : Nat) :
    (classify f m rnd32).2 0 = m 0 ∧
    (∀ k, k = 1 ∨ k = 2 →
      (classify f m rnd32).2 k = m k ∨
      ∃ v, m k = some v ∧ (classify f m rnd32).2 k = some ((v + 1) % U64MOD)) ∧
    (∀ k v w, k = 1 ∨ k = 2 → m k = some v → v + 1 < U64MOD →
      (classify f m rnd32).2 k = some w → v ≤ w) := by
  have hcases := classify_snd_cases f m rnd32
  have hstep : ∀ k, k = 1 ∨ k = 2 →
      (classify f m rnd32).2 k = m k ∨
      ∃ v, m k = some v ∧
        (classify f m rnd32).2 k = some ((v + 1) % U64MOD) := by
    intro k hk
    rcases hcases with h | h | h <;> rw [h]
    · exact Or.inl rfl
    · rcases eq_or_ne k 1 with hk1 | hk1
      · subst hk1
        cases hv : m 1 with
        | none => exact Or.inl (by unfold mapIncr; rw [hv]; exact hv)
        | some v => exact Or.inr ⟨v, rfl, mapIncr_apply_self m 1 v hv⟩
      · exact Or.inl (mapIncr_apply_ne m 1 k hk1)
    · rcases eq_or_ne k 2 with hk2 | hk2
      · subst hk2
        cases hv : m 2 with
        | none => exact Or.inl (by unfold mapIncr; rw [hv]; exact hv)
        | some v => exact Or.inr ⟨v, rfl, mapIncr_apply_self m 2 v hv⟩
      · exact Or.inl (mapIncr_apply_ne m 2 k hk2)
  refine ⟨?_, hstep, ?_⟩
  · rcases hcases with h | h | h
    · rw [h]
    · rw [h]
      exact mapIncr_apply_ne m 1 0 (by omega)
    · rw [h]
      exact mapIncr_apply_ne m 2 0 (by omega)
  · intro k v w hk hv hlt hw
    rcases hstep k hk with h | ⟨u, hu, h⟩
    · rw [h, hv] at hw
      injection hw with hvw
      omega
    · rw [hu] at hv
      injection hv with huv
      subst huv
      rw [h] at hw
      injection hw with hvw
      rw [Nat.mod_eq_of_lt hlt] at hvw
      omega

theorem getByte_set_ne (f : Frame) (i j a : Nat) (h : i ≠ j) :
    getByte (f.set i a) j = getByte f j := by
  unfold getByte
  rw [List.getD_eq_getElem?_getD, List.getD_eq_getElem?_getD,
    List.getElem?_set_ne h]

/-- C5: take any gate-relevant frame and overwrite only its two UDP
destination-port bytes; if the result no longer carries port 7502, the
program returns `XDP_PASS` and leaves the map untouched, for every map
state (hence every `drop_pct`) and every draw. -/
theorem port_discrimination (f : Frame) (m : GateMap) (rnd32 a b : Nat)
    (hrel : isGateRelevant f = true)
    (hport : udpDestIsLidar ((f.set (udpOff f + 2) a).set (udpOff f + 3) b)
      = false) :
    classify ((f.set (udpOff f + 2) a).set (udpOff f + 3) b) m rnd32 =
      (Decision.PASS, m) := by
  set g := (f.set (udpOff f + 2) a).set (udpOff f + 3) b with hg
  have hoff2 : udpOff f = 14 + 4 * (getByte f 14 % 16) := rfl
  have hbyte : ∀ j, udpOff f + 2 ≠ j → udpOff f + 3 ≠ j →
      getByte g j = getByte f j := by
    intro j h2 h3
    rw [hg, getByte_set_ne _ _ _ _ h3, getByte_set_ne _ _ _ _ h2]
  have h14 : getByte g 14 = getByte f 14 := hbyte 14 (by omega) (by omega)
  have hihl : ihl g = ihl f := by unfold ihl; rw [h14]
  have hoff : udpOff g = udpOff f := by unfold udpOff; rw [hihl]
  have h12 : getByte g 12 = getByte f 12 := hbyte 12 (by omega) (by omega)
  have h13 : getByte g 13 = getByte f 13 := hbyte 13 (by omega) (by omega)
  have h23 : getByte g 23 = getByte f 23 := hbyte 23 (by omega) (by omega)
  have hlen : g.length = f.length := by rw [hg]; simp
  unfold isGateRelevant at hrel
  simp only [Bool.and_eq_true, decide_eq_true_eq] at hrel
  obtain ⟨⟨⟨⟨⟨hl1, hp1⟩, hl2⟩, hp2⟩, hl3⟩, hp3⟩ := hrel
  unfold classify stageEthProto stageIp stageIpProto stageUdp stagePort
  rw [if_pos (show (14 : Nat) ≤ g.length by omega)]
  rw [if_pos (show ethProtoIsIPv4 g = true by
    unfold ethProtoIsIPv4 at hp1 ⊢; rw [h12, h13]; exact hp1)]
  rw [if_pos (show (34 : Nat) ≤ g.length by omega)]
  rw [if_pos (show (getByte g 23 == 17) = true by rw [h23]; exact hp2)]
  rw [if_pos (show udpOff g + 8 ≤ g.length by rw [hoff]; omega)]
  rw [if_neg (show ¬ udpDestIsLidar g = true by simp [hport])]

theorem port_discrimination_witness :
    isGateRelevant fQ = true ∧
    udpDestIsLidar ((fQ.set (udpOff fQ + 2) 0).set (udpOff fQ + 3) 0)
      = false ∧
    classify ((fQ.set (udpOff fQ + 2) 0).set (udpOff fQ + 3) 0) mFull 9 =
      (Decision.PASS, mFull) :=
  ⟨by decide, by decide,
    port_discrimination fQ mFull 9 0 0 (by decide) (by decide)⟩

theorem counter_step_bounded_witness :
    (classify fQ mFull 7).2 0 = mFull 0 ∧
    ((classify fQ mFull 7).2 1 = mFull 1 ∨
      ∃ v, mFull 1 = some v ∧
        (classify fQ mFull 7).2 1 = some ((v + 1) % U64MOD)) ∧
    (3 : Nat) ≤ 3 :=
  ⟨(counter_step_bounded fQ mFull 7).1,
   (counter_step_bounded fQ mFull 7).2.1 1 (Or.inl rfl),
   (counter_step_bounded fQ mFull 7).2.2 1 3 3 (Or.inl rfl) (by decide)
     (by decide) (by decide)⟩

theorem drawReduce_count (n r : Nat) (hr : r < 100) :
    ((Finset.range n).filter (fun x => drawReduce x = r)).card
      = n / 100 + if r < n % 100 then 1 else 0 := by
  induction n with
  | zero => simp
  | succ n ih =>
    rw [Finset.range_succ, Finset.filter_insert]
    by_cases h : drawReduce n = r
    · rw [if_pos h, Finset.card_insert_of_not_mem (by simp), ih]
      unfold drawReduce at h
      split_ifs <;> omega
    · rw [if_neg h, ih]
      unfold drawReduce at h
      split_ifs <;> omega

/-- C6 counterexample: the `% 100` reduction of a uniform 32-bit draw is
not equally distributed over the hundred residues — residue 0 has one
more 32-bit preimage than residue 99. -/
theorem draw_mod_bias :
    residueCount 0 = 42949673 ∧ residueCount 99 = 42949672 ∧
    residueCount 0 ≠ residueCount 99 := by
  unfold residueCount
  rw [drawReduce_count U32MOD 0 (by omega), drawReduce_count U32MOD 99 (by omega)]
  refine ⟨by decide, by decide, by decide⟩

/-- C6 amended: the reduced draw is only near-uniform on `[0, 100)`:
since `2^32 = 100 * 42949672 + 96`, residues below 96 have `42949673`
32-bit preimages and residues 96 to 99 have `42949672` — a relative bias
of about `2.3e-8`, not exact uniformity. -/
theorem draw_near_uniform (r : Nat) (hr : r < 100) :
    residueCount r = if r < 96 then 42949673 else 42949672 := by
  unfold residueCount
  rw [drawReduce_count U32MOD r hr]
  have h1 : U32MOD / 100 = 42949672 := by decide
  have h2 : U32MOD % 100 = 96 := by decide
  split_ifs <;> omega

theorem draw_near_uniform_witness :
    (5 : Nat) < 100 ∧ (97 : Nat) < 100 ∧
    residueCount 5 = 42949673 ∧ residueCount 97 = 42949672 := by
  refine ⟨by decide, by decide, ?_, ?_⟩
  · have h := draw_near_uniform 5 (by decide)
    simpa using h
  · have h := draw_near_uniform 97 (by decide)
    simpa using h

end XdpGate
